import Mathlib

/-!
Shallow embedding of the CDK `AnchorPositioningStrategy`
(`src/cdk/overlay/position/anchor-positioning-strategy.ts`) together with the
superseded draft variant of the same class kept in the repository, and proofs
of the specification claims about them.

Conventions of the embedding:
* TypeScript string-valued style properties become `String` fields whose
  default value is the empty string (an unset CSS declaration).
* Optional object fields become `Option`.
* Methods that can `throw` become functions into `Except String _`; the
  carried string is the thrown error message.
* The DOM world touched by the strategy (the host element's styles and class
  list, the overlay pane's styles and `anchorElement` property, the document's
  dynamically registered stylesheets, the module-level
  `positionFallbackId` counter, the position-change subject) is carried in a
  single `State` record together with the strategy's private fields.
* Every inline-style assignment performed by the strategy is additionally
  recorded in an append-only `styleWriteLog`, so that "the declarations
  written by a call" is a first-class, provable notion.
-/

/-- Horizontal connection position: `'start' | 'center' | 'end'`. -/
inductive HorizontalConnectionPos where
  | start
  | center
  | «end»
deriving DecidableEq, Repr

/-- Vertical connection position: `'top' | 'center' | 'bottom'`. -/
inductive VerticalConnectionPos where
  | top
  | center
  | bottom
deriving DecidableEq, Repr

/-- The string interpolated for a horizontal position, as in `anchor(start)`. -/
def HorizontalConnectionPos.css : HorizontalConnectionPos → String
  | .start => "start"
  | .center => "center"
  | .«end» => "end"

/-- The string interpolated for a vertical position, as in `anchor(bottom)`. -/
def VerticalConnectionPos.css : VerticalConnectionPos → String
  | .top => "top"
  | .center => "center"
  | .bottom => "bottom"

/-- A preferred position pair (`ConnectedPosition` from
`flexible-connected-position-strategy.ts`): attach the overlay point
`(overlayX, overlayY)` to the anchor point `(originX, originY)`.
`panelClass` is `string | string[]` in TypeScript; presence is what the
strategy code tests, so it is modelled as an optional list of class names. -/
structure ConnectedPosition where
  originX : HorizontalConnectionPos
  originY : VerticalConnectionPos
  overlayX : HorizontalConnectionPos
  overlayY : VerticalConnectionPos
  offsetX : Option Int := none
  offsetY : Option Int := none
  panelClass : Option (List String) := none
deriving DecidableEq, Repr

/-- The `AnchorPosition` record built by `_getAnchorPosition`: optional inset
expressions plus the two centering flags.  The TypeScript code builds it as a
`Partial`, so absent fields (modelled `none` / `false`) are falsy. -/
structure AnchorPosition where
  top : Option String := none
  bottom : Option String := none
  centerBlock : Bool := false
  left : Option String := none
  right : Option String := none
  centerInline : Bool := false
deriving DecidableEq, Repr

/-- Writing direction reported by the overlay handle's `getDirection()`. -/
inductive Direction where
  | ltr
  | rtl
deriving DecidableEq, Repr

/-- Overlay size constraints read through `overlayRef.getConfig()`; only the
fields the strategy consults are modelled. -/
structure OverlayConfig where
  minHeight : Option String := none
  minWidth : Option String := none
deriving DecidableEq, Repr

/-- The overlay handle (`OverlayReference`) as seen by the strategy: an
identity (JavaScript reference identity, used by the `attach` guard), the
current writing direction, and the size configuration.  `setDirection` on the
handle mutates `direction`. -/
structure OverlayReference where
  id : Nat
  direction : Direction
  config : OverlayConfig := {}
deriving DecidableEq, Repr

/-- `_isRtl`: `this._overlayReference!.getDirection() === 'rtl'`, evaluated on
the handle that is attached at the moment of the call. -/
def OverlayReference.isRtl (ref : OverlayReference) : Bool :=
  ref.direction == Direction.rtl

/-- A value of `FlexibleConnectedPositionStrategyOrigin` as it exists at
runtime: a DOM element, an `ElementRef` wrapping one, a point literal — or a
plain string logical anchor name, which the static type does not admit but
which the repository's own test suite passes to the constructor. -/
inductive OriginValue where
  | element (elemId : Nat)
  | elementRef (elemId : Nat)
  | point (x y : Int) (width height : Option Nat)
  | name (anchorName : String)
deriving DecidableEq, Repr

/-- The runtime check in `setOrigin`:
`origin instanceof Element || origin instanceof ElementRef`. -/
def OriginValue.isElementOrRef : OriginValue → Bool
  | .element _ => true
  | .elementRef _ => true
  | _ => false

/-- The anchor extraction in `apply()`:
`this._origin instanceof ElementRef ? this._origin.nativeElement : (this._origin as Element)`.
The cast leaves a non-`ElementRef` value unchanged. -/
def resolveAnchor : OriginValue → OriginValue
  | .elementRef i => .element i
  | o => o

/-- The four booleans of `ScrollingVisibility`, computed by
`_getScrollVisibility` from live bounding rectangles. -/
structure ScrollingVisibility where
  isOriginClipped : Bool
  isOriginOutsideView : Bool
  isOverlayClipped : Bool
  isOverlayOutsideView : Bool
deriving DecidableEq, Repr

/-- A `ConnectedOverlayPositionChange` event.  `_getPosition` in this strategy
returns an empty object cast to `ConnectedPosition` (a TODO stub), which is
modelled as `none`. -/
structure ConnectedOverlayPositionChange where
  connectionPair : Option ConnectedPosition
  scrollableViewProperties : ScrollingVisibility
deriving DecidableEq, Repr

/-- Which element an inline-style declaration was written on. -/
inductive StyleTarget where
  | pane
  | host
deriving DecidableEq, Repr

/-- One inline-style declaration written by the strategy. -/
structure StyleWrite where
  target : StyleTarget
  prop : String
  value : String
deriving DecidableEq, Repr

/-- The inline style declaration block of one element
(`CSSStyleDeclaration`), restricted to the properties the strategy touches,
including the draft anchor-positioning properties declared in the file's
`declare global` block.  `""` is an unset declaration. -/
structure ElementStyles where
  top : String := ""
  bottom : String := ""
  left : String := ""
  right : String := ""
  height : String := ""
  width : String := ""
  alignItems : String := ""
  justifyContent : String := ""
  margin : String := ""
  position : String := ""
  transform : String := ""
  minHeight : String := ""
  minWidth : String := ""
  anchorName : String := ""
  anchorDefault : String := ""
  positionFallback : String := ""
deriving DecidableEq, Repr

/-- Assign one named property of a style declaration block. -/
def ElementStyles.set (st : ElementStyles) (prop value : String) : ElementStyles :=
  if prop = "top" then { st with top := value }
  else if prop = "bottom" then { st with bottom := value }
  else if prop = "left" then { st with left := value }
  else if prop = "right" then { st with right := value }
  else if prop = "height" then { st with height := value }
  else if prop = "width" then { st with width := value }
  else if prop = "alignItems" then { st with alignItems := value }
  else if prop = "justifyContent" then { st with justifyContent := value }
  else if prop = "margin" then { st with margin := value }
  else if prop = "position" then { st with position := value }
  else if prop = "transform" then { st with transform := value }
  else if prop = "minHeight" then { st with minHeight := value }
  else if prop = "minWidth" then { st with minWidth := value }
  else if prop = "anchorName" then { st with anchorName := value }
  else if prop = "anchorDefault" then { st with anchorDefault := value }
  else if prop = "positionFallback" then { st with positionFallback := value }
  else st

/-- Class added to the overlay bounding box (`BOUNDING_BOX_CLASS`). -/
def BOUNDING_BOX_CLASS : String := "cdk-overlay-connected-position-bounding-box"

/-- `classList.add`: appends the class if it is not already present. -/
def classListAdd (classes : List String) (c : String) : List String :=
  if classes.contains c then classes else classes ++ [c]

/-- `classList.remove`: removes every occurrence of the class. -/
def classListRemove (classes : List String) (c : String) : List String :=
  classes.filter (fun x => x != c)

/-- The Angular `ngDevMode` global: `none` models it being undefined.  The
guard in the source is `typeof ngDevMode === 'undefined' || ngDevMode`. -/
def ngDevModeEnabled : Option Bool → Bool
  | none => true
  | some b => b

namespace AnchorPositioningStrategy

/-- The private fields of one `AnchorPositioningStrategy` instance together
with the DOM world it mutates.  Fields before `hostStyles` are the class's
own fields; the rest are the attached overlay's host element, pane element,
document stylesheet list, the module-level `positionFallbackId` counter, the
`_positionChanges` subject (observer count, completion flag, delivered
events), an environment-supplied scroll-visibility measurement, and the log
of inline-style declarations written so far. -/
structure State where
  overlayReference : Option OverlayReference := none
  hostBound : Bool := false
  paneBound : Bool := false
  origin : Option OriginValue := none
  isDisposed : Bool := false
  preferredPositions : List ConnectedPosition := []
  viewportMargin : Nat := 0
  hasFlexibleDimensions : Bool := true
  growAfterOpen : Bool := false
  canPush : Bool := true
  positionLocked : Bool := false
  offsetX : Int := 0
  offsetY : Int := 0
  hostStyles : ElementStyles := {}
  hostClasses : List String := []
  paneStyles : ElementStyles := {}
  paneAnchorElement : Option OriginValue := none
  positionFallbackId : Nat := 0
  documentStylesheets : List (String × String) := []
  positionChangesObservers : Nat := 0
  positionChangesCompleted : Bool := false
  emittedPositionChanges : List ConnectedOverlayPositionChange := []
  scrollVisibilityMeasurement : ScrollingVisibility :=
    ⟨false, false, false, false⟩
  styleWriteLog : List StyleWrite := []
deriving DecidableEq, Repr

/-- Write one inline-style declaration on the pane or host element, recording
it in the write log. -/
def writeStyle (target : StyleTarget) (prop value : String) (s : State) : State :=
  let s := { s with styleWriteLog :=
    s.styleWriteLog ++ [StyleWrite.mk target prop value] }
  match target with
  | .pane => { s with paneStyles := s.paneStyles.set prop value }
  | .host => { s with hostStyles := s.hostStyles.set prop value }

/-- Write a list of declarations in order. -/
def writeStyles (target : StyleTarget) (writes : List (String × String)) (s : State) : State :=
  writes.foldl (fun acc w => writeStyle target w.1 w.2 acc) s

/-- `setOrigin`: rejects anything that is not an `Element` or `ElementRef`. -/
def setOrigin (s : State) (origin : OriginValue) : Except String State :=
  if origin.isElementOrRef then
    .ok { s with origin := some origin }
  else
    .error "AnchorPositioningStrategy only works with an Element or ElementRef"

/-- The constructor `new AnchorPositioningStrategy(origin, ...)`: starts from
a fresh instance and runs `setOrigin`. -/
def construct (origin : OriginValue) : Except String State :=
  setOrigin {} origin

/-- Modelled from the spec: `validateConnectionPositionPairs` is declared in
`connected-position.ts`, which is not among the provided sources — only the
importing call sites are.  Per the spec, `center` is a first-class value of
the shared pair type (§3) and the manual engine fully supports it (§4.3), so
the shared validator accepts every pair whose four entries are among the
legal logical values; over the embedded enumerations every value is legal. -/
def validateConnectionPositionPairs (positions : List ConnectedPosition) :
    Except String Unit :=
  if positions.all (fun p =>
      (p.originX == .start || p.originX == .center || p.originX == .«end») &&
      (p.originY == .top || p.originY == .center || p.originY == .bottom) &&
      (p.overlayX == .start || p.overlayX == .center || p.overlayX == .«end») &&
      (p.overlayY == .top || p.overlayY == .center || p.overlayY == .bottom)) then
    .ok ()
  else
    .error "ConnectedPosition: Invalid position pair."

/-- `_validatePositions`: under dev mode, an empty list and a pair carrying a
`panelClass` are rejected, then the shared pair validator runs. -/
def validatePositions (ngDevMode : Option Bool)
    (positions : List ConnectedPosition) : Except String Unit :=
  if ngDevModeEnabled ngDevMode then
    if positions.isEmpty then
      .error "AnchorPositioningStrategy: At least one position is required."
    else if positions.any (fun p => p.panelClass.isSome) then
      .error "AnchorPositioningStrategy: panelClass not supported."
    else
      validateConnectionPositionPairs positions
  else
    .ok ()

/-- `attach(overlayRef)`: throws when already attached to a different handle
(under dev mode), validates the positions, then binds the handle, the host
and pane elements, clears the disposed flag and adds the bounding-box class
to the host element. -/
def attach (ngDevMode : Option Bool) (s : State) (overlayRef : OverlayReference) :
    Except String State :=
  if (s.overlayReference.any (fun r => r.id != overlayRef.id)) &&
      ngDevModeEnabled ngDevMode then
    .error "This position strategy is already attached to an overlay"
  else
    match validatePositions ngDevMode s.preferredPositions with
    | .error e => .error e
    | .ok _ =>
      .ok { s with
        overlayReference := some overlayRef
        hostBound := true
        paneBound := true
        isDisposed := false
        hostClasses := classListAdd s.hostClasses BOUNDING_BOX_CLASS }

/-- `withPositions(positions)`: replaces the preferred positions, then
validates.  The source mutates before validating, so the new list is kept
even when validation throws; the thrown error is returned alongside. -/
def withPositions (ngDevMode : Option Bool) (s : State)
    (positions : List ConnectedPosition) : State × Except String Unit :=
  ({ s with preferredPositions := positions },
   validatePositions ngDevMode positions)

/-- `withViewportMargin(margin)`. -/
def withViewportMargin (s : State) (margin : Nat) : State :=
  { s with viewportMargin := margin }

/-- `_resetOverlayElementStyles`: clears the pane declarations the strategy
writes; a no-op when no pane element is bound. -/
def resetOverlayElementStyles (s : State) : State :=
  if s.paneBound then
    writeStyles .pane
      [("top", ""), ("left", ""), ("bottom", ""), ("right", ""),
       ("position", ""), ("transform", ""), ("minHeight", ""), ("minWidth", "")] s
  else s

/-- `_resetHostElementStyles(insetZero)`: resets the host declarations, with
the four insets set to `"0"` when `insetZero` is true; a no-op when no host
element is bound. -/
def resetHostElementStyles (insetZero : Bool) (s : State) : State :=
  if s.hostBound then
    let insetLength := if insetZero then "0" else ""
    writeStyles .host
      [("top", insetLength), ("left", insetLength), ("right", insetLength),
       ("bottom", insetLength), ("height", ""), ("width", ""),
       ("alignItems", ""), ("justifyContent", ""), ("margin", "")] s
  else s

/-- `_getAnchorCenterCalc(anchorInset)`. -/
def getAnchorCenterCalc (anchorInset : String) : String :=
  "calc(" ++ anchorInset ++ " - min(" ++ anchorInset ++ " - 0%, 100% - " ++
    anchorInset ++ "))"

/-- `_getAnchorPosition(position)`: builds the inset expressions of one try
block.  Translated exactly, including the branch for `overlayX === 'center'`
that assigns `top` and `bottom` (not `left` and `right`), and the horizontal
branch condition `position.overlayX === 'start' || !this._isRtl()`. -/
def getAnchorPosition (isRtl : Bool) (position : ConnectedPosition) :
    AnchorPosition :=
  let anchorY := "anchor(" ++ position.originY.css ++ ")"
  let anchorX := "anchor(" ++ position.originX.css ++ ")"
  let ap : AnchorPosition := {}
  let ap :=
    if position.overlayY = .center then
      { ap with top := some (getAnchorCenterCalc anchorY),
                bottom := some (getAnchorCenterCalc anchorY),
                centerBlock := true }
    else if position.overlayY = .top then
      { ap with top := some anchorY }
    else
      { ap with bottom := some anchorY }
  if position.overlayX = .center then
    { ap with top := some (getAnchorCenterCalc anchorX),
              bottom := some (getAnchorCenterCalc anchorX),
              centerInline := true }
  else if position.overlayX = .start || !isRtl then
    { ap with left := some anchorX }
  else
    { ap with right := some anchorX }

/-- The try block `_getPositionTryCss` builds for one position.  The source
line appending `align-items` in the non-centered case ends in a stray `.`
instead of `; `, and the non-centered `justify-content` append likewise lacks
the `; ` separator, so neither receives a trailing separator here. -/
def positionTryBlock (isRtl : Bool) (position : ConnectedPosition) : String :=
  let anchorPosition := getAnchorPosition isRtl position
  let tryCss := "@try \x7b "
  let tryCss := match anchorPosition.top with
    | some t => tryCss ++ "top: " ++ t ++ "; "
    | none => tryCss
  let tryCss := match anchorPosition.bottom with
    | some b => tryCss ++ "bottom: " ++ b ++ "; "
    | none => tryCss
  let tryCss :=
    if anchorPosition.centerBlock then
      tryCss ++ "align-items: center; "
    else
      let alignItems :=
        if position.overlayX = .«end» then "flex-end" else "flex-start"
      tryCss ++ "align-items: " ++ alignItems
  let tryCss := match anchorPosition.left with
    | some l => tryCss ++ "left: " ++ l ++ "; "
    | none => tryCss
  let tryCss := match anchorPosition.right with
    | some r => tryCss ++ "right: " ++ r ++ "; "
    | none => tryCss
  let tryCss :=
    if anchorPosition.centerInline then
      tryCss ++ "justify-content: center; "
    else
      let justifyContent :=
        if position.overlayY = .bottom then "flex-end" else "flex-start"
      tryCss ++ "justify-content: " ++ justifyContent
  tryCss ++ "\x7d "

/-- `_getPositionTryCss(positionFallbackIdent)`: the whole
`@position` rule, one try block per preferred position in list order. -/
def getPositionTryCss (isRtl : Bool) (positions : List ConnectedPosition)
    (positionFallbackIdent : String) : String :=
  (positions.foldl (fun acc position => acc ++ positionTryBlock isRtl position)
    ("@position " ++ positionFallbackIdent ++ " \x7b ")) ++ "\x7d"

/-- `_setOverlayElementStyles`: always sets `position: fixed` on the pane;
when flexible dimensions are enabled, copies `minHeight` / `minWidth` from
the overlay configuration when present. -/
def setOverlayElementStyles (ref : OverlayReference) (s : State) : State :=
  let s := writeStyle .pane "position" "fixed" s
  if s.hasFlexibleDimensions then
    let s := match ref.config.minHeight with
      | some h => writeStyle .pane "minHeight" h s
      | none => s
    match ref.config.minWidth with
    | some w => writeStyle .pane "minWidth" w s
    | none => s
  else s

/-- `_setHostElementStyles`: writes the viewport margin when it is nonzero. -/
def setHostElementStyles (s : State) : State :=
  if s.viewportMargin ≠ 0 then
    writeStyle .host "margin" (toString s.viewportMargin ++ "px") s
  else s

/-- `_getPosition`: a TODO stub returning an empty object cast to
`ConnectedPosition`, modelled as the absence of a pair. -/
def getPosition : Option ConnectedPosition := none

/-- `_getScrollVisibility`: recomputed from live bounding rectangles on every
call; the measurement itself is outside the embedding and supplied by the
environment field of the state. -/
def getScrollVisibility (s : State) : ScrollingVisibility :=
  s.scrollVisibilityMeasurement

/-- `_observePosition`: when at least one observer is subscribed to
`_positionChanges`, builds a `ConnectedOverlayPositionChange` from the stub
position and a fresh scroll-visibility measurement and delivers it. -/
def observePosition (s : State) : State :=
  if s.positionChangesObservers ≠ 0 then
    { s with emittedPositionChanges :=
        s.emittedPositionChanges ++ [⟨getPosition, getScrollVisibility s⟩] }
  else s

/-- `_applyAnchorPositioning`: sets the pane and host styles, then builds a
unique fallback identifier from the module-level counter and the try-fallback
CSS for it — and discards both: the computed CSS is bound to a local that is
never read, so nothing is registered in the document and no fallback
reference is written on the pane. -/
def applyAnchorPositioning (ref : OverlayReference) (s : State) : State :=
  let s := setOverlayElementStyles ref s
  let s := setHostElementStyles s
  let positionFallbackIdent :=
    "--overlay-position-fallback-" ++ toString s.positionFallbackId
  let s := { s with positionFallbackId := s.positionFallbackId + 1 }
  let _positionFallbackCss :=
    getPositionTryCss ref.isRtl s.preferredPositions positionFallbackIdent
  s

/-- The body of `apply()` past the early return, for an attached strategy
whose handle is `ref`. -/
def applyCore (ref : OverlayReference) (s : State) : State :=
  let s := resetOverlayElementStyles s
  let s := resetHostElementStyles true s
  let s := { s with paneAnchorElement := s.origin.map resolveAnchor }
  let s := applyAnchorPositioning ref s
  observePosition s

/-- `apply()`: returns immediately when disposed or not in a browser;
otherwise dereferences the bound overlay handle and elements (a `TypeError`
when the strategy was never attached — the fields are set together in
`attach` and cleared together in `dispose`) and runs the positioning. -/
def apply (isBrowser : Bool) (s : State) : Except String State :=
  if s.isDisposed || !isBrowser then
    .ok s
  else
    match s.overlayReference with
    | none => .error "TypeError: this._overlayElement is undefined"
    | some ref =>
      if s.paneBound && s.hostBound then
        .ok (applyCore ref s)
      else
        .error "TypeError: this._overlayElement is undefined"

/-- `dispose()`: a no-op when already disposed; otherwise resets the host and
pane styles, removes the bounding-box class, completes the position-change
subject, releases the handle and element bindings and marks the strategy
disposed. -/
def dispose (s : State) : State :=
  if s.isDisposed then s
  else
    let s := resetHostElementStyles false s
    let s :=
      if s.hostBound then
        { s with hostClasses := classListRemove s.hostClasses BOUNDING_BOX_CLASS }
      else s
    let s := resetOverlayElementStyles s
    let s := { s with positionChangesCompleted := true }
    { s with
      overlayReference := none
      hostBound := false
      paneBound := false
      isDisposed := true }

/-- `reapplyLastPosition()`: unconditionally throws. -/
def reapplyLastPosition (_s : State) : Except String Unit :=
  .error "Unimplemented. With anchor positioning the browser does positioning."

/-- `setDirection` on the attached overlay handle: mutates the handle's
direction in place; the strategy holds the same handle by reference. -/
def setDirection (s : State) (d : Direction) : State :=
  { s with overlayReference :=
      s.overlayReference.map (fun r => { r with direction := d }) }

end AnchorPositioningStrategy

namespace AnchorPositioningStrategyV0

/-!
The superseded draft variant of `AnchorPositioningStrategy` kept in the
repository (the first class of the unnamed source file).  Its anchor may be a
string logical name; `apply()` binds a string anchor through the pane's
`anchor-default` declaration and an element anchor through the pane's
`anchorElement` property, and references a caller-supplied named position
fallback.
-/

/-- The draft variant's fields and the pane state it mutates. -/
structure State where
  anchor : OriginValue
  positionFallback : Option String := none
  isDisposed : Bool := false
  panePosition : String := ""
  paneAnchorDefault : String := ""
  panePositionFallback : String := ""
  paneAnchorElement : Option OriginValue := none
deriving DecidableEq, Repr

/-- `withAnchor(anchor)`: stores the anchor with no runtime check. -/
def withAnchor (s : State) (anchor : OriginValue) : State :=
  { s with anchor := anchor }

/-- `withPositionFallback(positionFallback)`. -/
def withPositionFallback (s : State) (positionFallback : String) : State :=
  { s with positionFallback := some positionFallback }

/-- The draft variant's `apply()`: early return when disposed or not in a
browser; sets `position: fixed`; a string anchor is bound by logical name
through `anchor-default`, any other anchor through the `anchorElement`
property; finally the named position fallback, when configured, is
referenced from the pane's style. -/
def apply (isBrowser : Bool) (s : State) : State :=
  if s.isDisposed || !isBrowser then s
  else
    let s := { s with panePosition := "fixed" }
    let s :=
      match s.anchor with
      | .name n => { s with paneAnchorDefault := "--" ++ n }
      | a => { s with paneAnchorElement := some (resolveAnchor a) }
    match s.positionFallback with
    | some pf => { s with panePositionFallback := "--" ++ pf }
    | none => s

end AnchorPositioningStrategyV0

open AnchorPositioningStrategy

/-- The error message of a fallible call, `none` when it succeeded. -/
def exceptError {α : Type} : Except String α → Option String
  | .error e => some e
  | .ok _ => none

/-- Whether a fallible call succeeded. -/
def exceptOk {α : Type} : Except String α → Bool
  | .error _ => false
  | .ok _ => true

/-- The inline-style declarations one `apply()` call writes, in source order:
the pane reset, the host reset with zero insets, `position: fixed`, the
optional `minHeight` / `minWidth` copies, and the optional viewport margin. -/
def applyWriteList (ref : OverlayReference) (s : State) : List StyleWrite :=
  [⟨.pane, "top", ""⟩, ⟨.pane, "left", ""⟩, ⟨.pane, "bottom", ""⟩,
   ⟨.pane, "right", ""⟩, ⟨.pane, "position", ""⟩, ⟨.pane, "transform", ""⟩,
   ⟨.pane, "minHeight", ""⟩, ⟨.pane, "minWidth", ""⟩,
   ⟨.host, "top", "0"⟩, ⟨.host, "left", "0"⟩, ⟨.host, "right", "0"⟩,
   ⟨.host, "bottom", "0"⟩, ⟨.host, "height", ""⟩, ⟨.host, "width", ""⟩,
   ⟨.host, "alignItems", ""⟩, ⟨.host, "justifyContent", ""⟩,
   ⟨.host, "margin", ""⟩, ⟨.pane, "position", "fixed"⟩] ++
  (if s.hasFlexibleDimensions then
    (match ref.config.minHeight with
     | some h => [⟨.pane, "minHeight", h⟩]
     | none => []) ++
    (match ref.config.minWidth with
     | some w => [⟨.pane, "minWidth", w⟩]
     | none => [])
   else []) ++
  (if s.viewportMargin ≠ 0 then
    [⟨.host, "margin", toString s.viewportMargin ++ "px"⟩]
   else [])

/-- A concrete overlay handle in left-to-right context. -/
def demoRef : OverlayReference := { id := 0, direction := .ltr }

/-- A second, distinct overlay handle. -/
def demoRef2 : OverlayReference := { id := 1, direction := .ltr }

/-- The pair attaching the overlay's top start corner below the anchor. -/
def pairStartTop : ConnectedPosition :=
  { originX := .start, originY := .bottom, overlayX := .start, overlayY := .top }

/-- The mirrored pair attaching the overlay's bottom end corner above it. -/
def pairEndBottom : ConnectedPosition :=
  { originX := .«end», originY := .top, overlayX := .«end», overlayY := .bottom }

/-- A pair carrying a `panelClass`. -/
def pairWithPanelClass : ConnectedPosition :=
  { pairStartTop with panelClass := some ["custom-panel-class"] }

/-- A pair requesting centering on both axes. -/
def centerPair : ConnectedPosition :=
  { originX := .center, originY := .center,
    overlayX := .center, overlayY := .center }

/-- A freshly constructed strategy over a concrete element anchor with one
preferred position. -/
def freshOne : State :=
  { origin := some (.element 1), preferredPositions := [pairStartTop] }

/-- `freshOne` after a successful `attach` to `demoRef`. -/
def attachedOne : State :=
  { freshOne with
    overlayReference := some demoRef
    hostBound := true
    paneBound := true
    hostClasses := [BOUNDING_BOX_CLASS] }

/-- An attached strategy configured with two preferred positions. -/
def attachedTwo : State :=
  { attachedOne with preferredPositions := [pairStartTop, pairEndBottom] }

/-- An attached strategy with one subscribed position-change observer. -/
def attachedObserved : State :=
  { attachedOne with positionChangesObservers := 1 }

/-- A freshly constructed strategy configured with a centering pair. -/
def freshCenter : State :=
  { origin := some (.element 1), preferredPositions := [centerPair] }

/-- The draft-variant strategy as the repository's test suite builds it:
`new AnchorPositioningStrategy('anchor', platform).withPositionFallback('default-position')`. -/
def v0Demo : AnchorPositioningStrategyV0.State :=
  AnchorPositioningStrategyV0.withPositionFallback
    { anchor := OriginValue.name "anchor" } "default-position"

/-- An attached strategy whose origin is an `ElementRef` wrapper. -/
def attachedRefOrigin : State :=
  { attachedOne with origin := some (.elementRef 2) }

theorem ElementStyles.set_top (st : ElementStyles) (v : String) :
    st.set "top" v = { st with top := v } := rfl

theorem ElementStyles.set_bottom (st : ElementStyles) (v : String) :
    st.set "bottom" v = { st with bottom := v } := rfl

theorem ElementStyles.set_left (st : ElementStyles) (v : String) :
    st.set "left" v = { st with left := v } := rfl

theorem ElementStyles.set_right (st : ElementStyles) (v : String) :
    st.set "right" v = { st with right := v } := rfl

theorem ElementStyles.set_height (st : ElementStyles) (v : String) :
    st.set "height" v = { st with height := v } := rfl

theorem ElementStyles.set_width (st : ElementStyles) (v : String) :
    st.set "width" v = { st with width := v } := rfl

theorem ElementStyles.set_alignItems (st : ElementStyles) (v : String) :
    st.set "alignItems" v = { st with alignItems := v } := rfl

theorem ElementStyles.set_justifyContent (st : ElementStyles) (v : String) :
    st.set "justifyContent" v = { st with justifyContent := v } := rfl

theorem ElementStyles.set_margin (st : ElementStyles) (v : String) :
    st.set "margin" v = { st with margin := v } := rfl

theorem ElementStyles.set_position (st : ElementStyles) (v : String) :
    st.set "position" v = { st with position := v } := rfl

theorem ElementStyles.set_transform (st : ElementStyles) (v : String) :
    st.set "transform" v = { st with transform := v } := rfl

theorem ElementStyles.set_minHeight (st : ElementStyles) (v : String) :
    st.set "minHeight" v = { st with minHeight := v } := rfl

theorem ElementStyles.set_minWidth (st : ElementStyles) (v : String) :
    st.set "minWidth" v = { st with minWidth := v } := rfl

theorem classListAdd_contains (l : List String) (c : String) :
    (classListAdd l c).contains c = true := by
  unfold classListAdd
  split
  · assumption
  · simp

theorem classListAdd_idem (l : List String) (c : String) :
    classListAdd (classListAdd l c) c = classListAdd l c := by
  unfold classListAdd
  split
  · simp [*]
  · simp

theorem classListRemove_contains (l : List String) (c : String) :
    (classListRemove l c).contains c = false := by
  simp [classListRemove]

/-- Over the embedded enumerations every pair passes the shared validator. -/
theorem validateConnectionPositionPairs_ok (positions : List ConnectedPosition) :
    validateConnectionPositionPairs positions = .ok () := by
  unfold validateConnectionPositionPairs
  rw [if_pos]
  rw [List.all_eq_true]
  intro p _
  obtain ⟨ox, oy, vx, vy, _, _, _⟩ := p
  cases ox <;> cases oy <;> cases vx <;> cases vy <;> rfl

set_option maxHeartbeats 1000000 in
/-- `applyCore` leaves every configuration field, the binding fields, the
class list and the document stylesheets unchanged; it only rewrites styles,
the anchor binding, the fallback counter, the event list and the write log. -/
theorem applyCore_preserves (ref : OverlayReference) (s : State)
    (hp : s.paneBound = true) (hh : s.hostBound = true) :
    (applyCore ref s).overlayReference = s.overlayReference ∧
    (applyCore ref s).hostBound = true ∧
    (applyCore ref s).paneBound = true ∧
    (applyCore ref s).isDisposed = s.isDisposed ∧
    (applyCore ref s).origin = s.origin ∧
    (applyCore ref s).preferredPositions = s.preferredPositions ∧
    (applyCore ref s).viewportMargin = s.viewportMargin ∧
    (applyCore ref s).hasFlexibleDimensions = s.hasFlexibleDimensions ∧
    (applyCore ref s).positionChangesObservers = s.positionChangesObservers ∧
    (applyCore ref s).scrollVisibilityMeasurement = s.scrollVisibilityMeasurement ∧
    (applyCore ref s).documentStylesheets = s.documentStylesheets ∧
    (applyCore ref s).hostClasses = s.hostClasses ∧
    (applyCore ref s).positionChangesCompleted = s.positionChangesCompleted := by
  by_cases h1 : s.hasFlexibleDimensions <;>
  rcases h2 : ref.config.minHeight with _ | mh <;>
  rcases h3 : ref.config.minWidth with _ | mw <;>
  by_cases h4 : s.viewportMargin = 0 <;>
  by_cases h5 : s.positionChangesObservers = 0 <;>
    simp [applyCore, resetOverlayElementStyles, resetHostElementStyles,
      writeStyles, writeStyle, applyAnchorPositioning, setOverlayElementStyles,
      setHostElementStyles, observePosition, hp, hh, h1, h2, h3, h4, h5]

set_option maxHeartbeats 1000000 in
/-- The inline-style declarations appended to the write log by one pass of
`applyCore` are exactly `applyWriteList`. -/
theorem applyCore_styleWriteLog (ref : OverlayReference) (s : State)
    (hp : s.paneBound = true) (hh : s.hostBound = true) :
    (applyCore ref s).styleWriteLog = s.styleWriteLog ++ applyWriteList ref s := by
  by_cases h1 : s.hasFlexibleDimensions <;>
  rcases h2 : ref.config.minHeight with _ | mh <;>
  rcases h3 : ref.config.minWidth with _ | mw <;>
  by_cases h4 : s.viewportMargin = 0 <;>
  by_cases h5 : s.positionChangesObservers = 0 <;>
    simp [applyCore, applyWriteList, resetOverlayElementStyles,
      resetHostElementStyles, writeStyles, writeStyle, applyAnchorPositioning,
      setOverlayElementStyles, setHostElementStyles, observePosition,
      hp, hh, h1, h2, h3, h4, h5]

set_option maxHeartbeats 1000000 in
/-- One pass of `applyCore` delivers exactly one position-change event when
observers are subscribed — built from the stub position and the fresh
scroll-visibility measurement — and none otherwise. -/
theorem applyCore_emitted (ref : OverlayReference) (s : State)
    (hp : s.paneBound = true) (hh : s.hostBound = true) :
    (applyCore ref s).emittedPositionChanges =
      (if s.positionChangesObservers ≠ 0 then
        s.emittedPositionChanges ++
          [⟨getPosition, s.scrollVisibilityMeasurement⟩]
      else s.emittedPositionChanges) := by
  by_cases h1 : s.hasFlexibleDimensions <;>
  rcases h2 : ref.config.minHeight with _ | mh <;>
  rcases h3 : ref.config.minWidth with _ | mw <;>
  by_cases h4 : s.viewportMargin = 0 <;>
  by_cases h5 : s.positionChangesObservers = 0 <;>
    simp [applyCore, resetOverlayElementStyles, resetHostElementStyles,
      writeStyles, writeStyle, applyAnchorPositioning, setOverlayElementStyles,
      setHostElementStyles, observePosition, getScrollVisibility,
      hp, hh, h1, h2, h3, h4, h5]

set_option maxHeartbeats 1000000 in
/-- `applyCore` binds the pane's `anchorElement` property to the strategy's
origin, unwrapping an `ElementRef`. -/
theorem applyCore_paneAnchorElement (ref : OverlayReference) (s : State)
    (hp : s.paneBound = true) (hh : s.hostBound = true) :
    (applyCore ref s).paneAnchorElement = s.origin.map resolveAnchor := by
  by_cases h1 : s.hasFlexibleDimensions <;>
  rcases h2 : ref.config.minHeight with _ | mh <;>
  rcases h3 : ref.config.minWidth with _ | mw <;>
  by_cases h4 : s.viewportMargin = 0 <;>
  by_cases h5 : s.positionChangesObservers = 0 <;>
    simp [applyCore, resetOverlayElementStyles, resetHostElementStyles,
      writeStyles, writeStyle, applyAnchorPositioning, setOverlayElementStyles,
      setHostElementStyles, observePosition, hp, hh, h1, h2, h3, h4, h5]

set_option maxHeartbeats 4000000 in
/-- Re-running `applyCore` with no intervening state change rewrites the pane
styles to the very same values. -/
theorem applyCore_paneStyles_again (ref : OverlayReference) (s : State)
    (hp : s.paneBound = true) (hh : s.hostBound = true) :
    (applyCore ref (applyCore ref s)).paneStyles = (applyCore ref s).paneStyles := by
  by_cases h1 : s.hasFlexibleDimensions <;>
  rcases h2 : ref.config.minHeight with _ | mh <;>
  rcases h3 : ref.config.minWidth with _ | mw <;>
  by_cases h4 : s.viewportMargin = 0 <;>
  by_cases h5 : s.positionChangesObservers = 0 <;>
    simp [applyCore, resetOverlayElementStyles, resetHostElementStyles,
      writeStyles, writeStyle, applyAnchorPositioning, setOverlayElementStyles,
      setHostElementStyles, observePosition, ElementStyles.set_top,
      ElementStyles.set_bottom, ElementStyles.set_left, ElementStyles.set_right,
      ElementStyles.set_height, ElementStyles.set_width,
      ElementStyles.set_alignItems, ElementStyles.set_justifyContent,
      ElementStyles.set_margin, ElementStyles.set_position,
      ElementStyles.set_transform, ElementStyles.set_minHeight,
      ElementStyles.set_minWidth, hp, hh, h1, h2, h3, h4, h5]

set_option maxHeartbeats 4000000 in
/-- Re-running `applyCore` with no intervening state change rewrites the host
styles to the very same values. -/
theorem applyCore_hostStyles_again (ref : OverlayReference) (s : State)
    (hp : s.paneBound = true) (hh : s.hostBound = true) :
    (applyCore ref (applyCore ref s)).hostStyles = (applyCore ref s).hostStyles := by
  by_cases h1 : s.hasFlexibleDimensions <;>
  rcases h2 : ref.config.minHeight with _ | mh <;>
  rcases h3 : ref.config.minWidth with _ | mw <;>
  by_cases h4 : s.viewportMargin = 0 <;>
  by_cases h5 : s.positionChangesObservers = 0 <;>
    simp [applyCore, resetOverlayElementStyles, resetHostElementStyles,
      writeStyles, writeStyle, applyAnchorPositioning, setOverlayElementStyles,
      setHostElementStyles, observePosition, ElementStyles.set_top,
      ElementStyles.set_bottom, ElementStyles.set_left, ElementStyles.set_right,
      ElementStyles.set_height, ElementStyles.set_width,
      ElementStyles.set_alignItems, ElementStyles.set_justifyContent,
      ElementStyles.set_margin, ElementStyles.set_position,
      ElementStyles.set_transform, ElementStyles.set_minHeight,
      ElementStyles.set_minWidth, hp, hh, h1, h2, h3, h4, h5]

/-- Claim C10: invoking `reapplyLastPosition` on the declarative engine
always fails synchronously with the unimplemented-operation error, whatever
the strategy's state, and never returns position data. -/
theorem c10_reapplyLastPosition_always_throws (s : State) :
    reapplyLastPosition s =
      .error "Unimplemented. With anchor positioning the browser does positioning." :=
  rfl

/-- Claim C1, evaluated at the failing input: for the pair
`originX: start, overlayX: start` in a right-to-left context,
`_getAnchorPosition` still resolves the horizontal inset to the physical
`left` side (`left: anchor(start)`, `right` unset), because the branch
condition `position.overlayX === 'start' || !this._isRtl()` short-circuits
on `overlayX` before consulting the direction — while the claim, the spec
and the repository's own right-to-left test require the `right` side.  In a
left-to-right context the same pair resolves to `left`, as claimed. -/
theorem c1_start_pair_rtl_still_resolves_left :
    (getAnchorPosition true pairStartTop).left = some "anchor(start)" ∧
    (getAnchorPosition true pairStartTop).right = none ∧
    (getAnchorPosition false pairStartTop).left = some "anchor(start)" ∧
    (getAnchorPosition false pairStartTop).right = none :=
  ⟨rfl, rfl, rfl, rfl⟩

/-- Claim C2, evaluated at the failing inputs: after a successful attach,
`apply()` on a single-position configuration leaves every pane inset at its
reset (empty) value instead of writing the position's anchor insets, and on
a two-position configuration registers no stylesheet in the document and
never references a fallback name from the pane; `dispose()` afterwards has
no stylesheet to remove.  `_applyAnchorPositioning` computes the fallback
CSS into a local that is never read. -/
theorem c2_fallback_css_discarded :
    attach none freshOne demoRef = .ok attachedOne ∧
    (apply true attachedOne).map (fun s => s.paneStyles.top) = .ok "" ∧
    (apply true attachedOne).map (fun s => s.paneStyles.bottom) = .ok "" ∧
    (apply true attachedOne).map (fun s => s.paneStyles.left) = .ok "" ∧
    (apply true attachedOne).map (fun s => s.paneStyles.right) = .ok "" ∧
    (apply true attachedOne).map (fun s => s.paneStyles.positionFallback) = .ok "" ∧
    (apply true attachedOne).map State.documentStylesheets = .ok [] ∧
    (apply true attachedTwo).map State.documentStylesheets = .ok [] ∧
    (apply true attachedTwo).map (fun s => s.paneStyles.positionFallback) = .ok "" ∧
    (apply true attachedTwo).map (fun s => (dispose s).documentStylesheets) = .ok [] :=
  ⟨rfl, rfl, rfl, rfl, rfl, rfl, rfl, rfl, rfl, rfl⟩

/-- Claim C3, counterexample: a preferred-position list consisting of a pair
that requests centering on both axes passes position validation — both when
the positions are set and at `attach()` — with no unsupported-feature error. -/
theorem c3_counterexample_center_not_rejected :
    (withPositions none freshOne [centerPair]).2 = .ok () ∧
    exceptOk (attach none freshCenter demoRef) = true ∧
    validatePositions none [centerPair] = .ok () :=
  ⟨rfl, rfl, rfl⟩

/-- Claim C3 as amended: a centering pair is accepted by position validation
(no error is raised at `attach()` or `withPositions()`); instead of failing,
`_getAnchorPosition` translates centering requests into min/calc centering
inset expressions and sets the corresponding center flag — with the
`overlayX: center` branch writing those expressions into the block-axis
insets `top` and `bottom` and leaving `left` and `right` unset. -/
theorem c3_center_translated_not_rejected (p : ConnectedPosition) (rtl : Bool)
    (hpc : p.panelClass = none) :
    validatePositions none [p] = .ok () ∧
    (p.overlayY = .center → (getAnchorPosition rtl p).centerBlock = true) ∧
    (p.overlayX = .center →
      (getAnchorPosition rtl p).centerInline = true ∧
      (getAnchorPosition rtl p).top =
        some (getAnchorCenterCalc ("anchor(" ++ p.originX.css ++ ")")) ∧
      (getAnchorPosition rtl p).bottom =
        some (getAnchorCenterCalc ("anchor(" ++ p.originX.css ++ ")")) ∧
      (getAnchorPosition rtl p).left = none ∧
      (getAnchorPosition rtl p).right = none) := by
  obtain ⟨ox, oy, vx, vy, _, _, pc⟩ := p
  subst hpc
  refine ⟨?_, ?_, ?_⟩
  · simp [validatePositions, ngDevModeEnabled,
      validateConnectionPositionPairs_ok]
  · cases vy <;> cases vx <;> cases rtl <;> simp [getAnchorPosition]
  · cases vy <;> cases vx <;> cases rtl <;> simp [getAnchorPosition]

/-- Witness for the amended claim C3 at the concrete centering pair. -/
theorem c3_center_translated_not_rejected_witness :
    centerPair.panelClass = none ∧
    (validatePositions none [centerPair] = .ok () ∧
     (centerPair.overlayY = .center →
       (getAnchorPosition false centerPair).centerBlock = true) ∧
     (centerPair.overlayX = .center →
       (getAnchorPosition false centerPair).centerInline = true ∧
       (getAnchorPosition false centerPair).top =
         some (getAnchorCenterCalc ("anchor(" ++ centerPair.originX.css ++ ")")) ∧
       (getAnchorPosition false centerPair).bottom =
         some (getAnchorCenterCalc ("anchor(" ++ centerPair.originX.css ++ ")")) ∧
       (getAnchorPosition false centerPair).left = none ∧
       (getAnchorPosition false centerPair).right = none)) :=
  ⟨rfl, c3_center_translated_not_rejected centerPair false rfl⟩

/-- Claim C6, counterexample: with one observer subscribed to the
position-change stream, a single `attach()`/`apply()` run delivers exactly
one position-change event (carrying the stub position), so the engine does
emit position-change notifications. -/
theorem c6_counterexample_apply_emits :
    attach none { freshOne with positionChangesObservers := 1 } demoRef =
      .ok attachedObserved ∧
    (apply true attachedObserved).map (fun s => s.emittedPositionChanges) =
      .ok [⟨getPosition, ⟨false, false, false, false⟩⟩] :=
  ⟨rfl, rfl⟩

/-- Claim C6 as amended: on every `apply()` of an attached strategy, the
engine delivers exactly one position-change event to subscribed observers —
built from the stub position `_getPosition` returns and a fresh
scroll-visibility measurement — and delivers nothing when no observer is
subscribed. -/
theorem c6_apply_emits_exactly_when_observed (s : State) (ref : OverlayReference)
    (href : s.overlayReference = some ref) (hp : s.paneBound = true)
    (hh : s.hostBound = true) (hd : s.isDisposed = false) :
    apply true s = .ok (applyCore ref s) ∧
    (applyCore ref s).emittedPositionChanges =
      (if s.positionChangesObservers ≠ 0 then
        s.emittedPositionChanges ++
          [⟨getPosition, s.scrollVisibilityMeasurement⟩]
      else s.emittedPositionChanges) := by
  constructor
  · simp [apply, hd, href, hp, hh]
  · exact applyCore_emitted ref s hp hh

/-- Witness for the amended claim C6 at the concrete observed strategy. -/
theorem c6_apply_emits_exactly_when_observed_witness :
    attachedObserved.overlayReference = some demoRef ∧
    attachedObserved.paneBound = true ∧
    attachedObserved.hostBound = true ∧
    attachedObserved.isDisposed = false ∧
    (apply true attachedObserved = .ok (applyCore demoRef attachedObserved) ∧
     (applyCore demoRef attachedObserved).emittedPositionChanges =
       (if attachedObserved.positionChangesObservers ≠ 0 then
         attachedObserved.emittedPositionChanges ++
           [⟨getPosition, attachedObserved.scrollVisibilityMeasurement⟩]
       else attachedObserved.emittedPositionChanges)) :=
  ⟨rfl, rfl, rfl, rfl,
   c6_apply_emits_exactly_when_observed attachedObserved demoRef rfl rfl rfl rfl⟩

/-- Claim C4: for a strategy attached via a successful `attach(r)`, calling
`attach` again with the same handle succeeds silently and returns the
identical state (idempotent), while calling it with a handle of a different
identity fails with the "already attached" error (under the default
environment, in which the dev-mode guard is compiled in). -/
theorem c4_attach_same_idempotent_different_throws (d : Option Bool)
    (s s₁ : State) (r r' : OverlayReference)
    (h : attach d s r = .ok s₁) (hids : r'.id ≠ r.id)
    (hdev : ngDevModeEnabled d = true) :
    attach d s₁ r = .ok s₁ ∧
    attach d s₁ r' =
      .error "This position strategy is already attached to an overlay" := by
  unfold attach at h
  split at h
  · exact absurd h (by simp)
  · rcases hv : validatePositions d s.preferredPositions with e | u
    · rw [hv] at h
      simp at h
    · rw [hv] at h
      simp only [Except.ok.injEq] at h
      subst h
      cases u
      constructor
      · simp [attach, hv, classListAdd_idem]
      · simp [attach, hdev, bne_iff_ne, Ne.symm hids]

/-- Witness for claim C4: concrete first attach, silent re-attach with the
same handle, error on a different handle. -/
theorem c4_attach_same_idempotent_different_throws_witness :
    attach none attachedOne demoRef = .ok attachedOne ∧
    attach none attachedOne demoRef2 =
      .error "This position strategy is already attached to an overlay" :=
  c4_attach_same_idempotent_different_throws none freshOne attachedOne
    demoRef demoRef2 rfl (by decide) rfl

/-- Claim C7: position validation runs on `attach()` (its failure is exactly
the validator's failure) and on `withPositions()` (whose outcome is exactly
the validator's outcome on the new list, which is stored even on failure);
the validator rejects the empty list with the "position required" error,
rejects any list containing a pair with a `panelClass` with the dedicated
error, and accepts every other list.  All under the default dev-mode
environment, in which validation is compiled in. -/
theorem c7_validation_on_attach_and_withPositions (d : Option Bool) (s : State)
    (ps : List ConnectedPosition) (r : OverlayReference)
    (hdev : ngDevModeEnabled d = true) (hnone : s.overlayReference = none) :
    (withPositions d s ps).1.preferredPositions = ps ∧
    (withPositions d s ps).2 = validatePositions d ps ∧
    exceptError (attach d s r) =
      exceptError (validatePositions d s.preferredPositions) ∧
    validatePositions d [] =
      .error "AnchorPositioningStrategy: At least one position is required." ∧
    (ps.any (fun p => p.panelClass.isSome) = true →
      validatePositions d ps =
        .error "AnchorPositioningStrategy: panelClass not supported.") ∧
    (validatePositions d ps = .ok () ↔
      ps ≠ [] ∧ ps.any (fun p => p.panelClass.isSome) = false) := by
  refine ⟨rfl, rfl, ?_, ?_, ?_, ?_⟩
  · rcases hv : validatePositions d s.preferredPositions with e | u
    · simp [attach, hnone, hv, exceptError]
    · simp [attach, hnone, hv, exceptError]
  · simp [validatePositions, hdev]
  · intro ha
    rcases ps with _ | ⟨p, ps'⟩
    · simp at ha
    · simp [validatePositions, hdev, ha]
  · rcases ps with _ | ⟨p, ps'⟩
    · simp [validatePositions, hdev]
    · by_cases ha : (p :: ps').any (fun q => q.panelClass.isSome) = true
      · simp [validatePositions, hdev, ha]
      · simp only [Bool.not_eq_true] at ha
        simp [validatePositions, hdev, ha, validateConnectionPositionPairs_ok]

/-- Witness for claim C7: the validator and both entry points at concrete
inputs — acceptance of a plain pair, the empty-list error, the panel-class
error, and `attach` succeeding exactly as validation does. -/
theorem c7_validation_on_attach_and_withPositions_witness :
    ngDevModeEnabled none = true ∧
    freshOne.overlayReference = none ∧
    (withPositions none freshOne [pairWithPanelClass]).1.preferredPositions =
      [pairWithPanelClass] ∧
    (withPositions none freshOne [pairWithPanelClass]).2 =
      .error "AnchorPositioningStrategy: panelClass not supported." ∧
    exceptError (attach none freshOne demoRef) = none ∧
    validatePositions none [] =
      .error "AnchorPositioningStrategy: At least one position is required." ∧
    validatePositions none [pairStartTop] = .ok () := by
  have h := c7_validation_on_attach_and_withPositions none freshOne
    [pairWithPanelClass] demoRef rfl rfl
  have h2 := c7_validation_on_attach_and_withPositions none freshOne
    [pairStartTop] demoRef rfl rfl
  refine ⟨rfl, rfl, h.1, ?_, ?_, h.2.2.2.1, ?_⟩
  · rw [h.2.1]
    exact h.2.2.2.2.1 (by decide)
  · exact h.2.2.1.trans rfl
  · exact h2.2.2.2.2.2.mpr (by constructor <;> decide)

/-- Claim C9: after `dispose()` of an attached strategy, a second `dispose()`
returns the state unchanged and a subsequent `apply()` succeeds without any
effect; the disposed state carries no residual inline declarations (every
pane and host property the strategy ever writes is cleared), the
bounding-box class is removed, and no registered stylesheet remains beyond
what existed before. -/
theorem c9_dispose_terminal_and_clean (s : State) (b : Bool)
    (hh : s.hostBound = true) (hp : s.paneBound = true)
    (hd : s.isDisposed = false) :
    dispose (dispose s) = dispose s ∧
    apply b (dispose s) = .ok (dispose s) ∧
    (dispose s).paneStyles.top = "" ∧
    (dispose s).paneStyles.left = "" ∧
    (dispose s).paneStyles.bottom = "" ∧
    (dispose s).paneStyles.right = "" ∧
    (dispose s).paneStyles.position = "" ∧
    (dispose s).paneStyles.transform = "" ∧
    (dispose s).paneStyles.minHeight = "" ∧
    (dispose s).paneStyles.minWidth = "" ∧
    (dispose s).hostStyles.top = "" ∧
    (dispose s).hostStyles.left = "" ∧
    (dispose s).hostStyles.right = "" ∧
    (dispose s).hostStyles.bottom = "" ∧
    (dispose s).hostStyles.height = "" ∧
    (dispose s).hostStyles.width = "" ∧
    (dispose s).hostStyles.alignItems = "" ∧
    (dispose s).hostStyles.justifyContent = "" ∧
    (dispose s).hostStyles.margin = "" ∧
    (dispose s).hostClasses.contains BOUNDING_BOX_CLASS = false ∧
    (dispose s).documentStylesheets = s.documentStylesheets := by
  have hdis : (dispose s).isDisposed = true := by
    simp [dispose, hd, resetHostElementStyles, resetOverlayElementStyles,
      writeStyles, writeStyle, hh, hp]
  refine ⟨?_, ?_, ?_⟩
  · rw [dispose]
    rw [if_pos hdis]
  · rw [apply]
    rw [if_pos]
    rw [hdis]
    simp
  · simp [dispose, hd, resetHostElementStyles, resetOverlayElementStyles,
      writeStyles, writeStyle, hh, hp, ElementStyles.set_top,
      ElementStyles.set_bottom, ElementStyles.set_left, ElementStyles.set_right,
      ElementStyles.set_height, ElementStyles.set_width,
      ElementStyles.set_alignItems, ElementStyles.set_justifyContent,
      ElementStyles.set_margin, ElementStyles.set_position,
      ElementStyles.set_transform, ElementStyles.set_minHeight,
      ElementStyles.set_minWidth, classListRemove]

/-- Witness for claim C9 at the concrete attached strategy. -/
theorem c9_dispose_terminal_and_clean_witness :
    attachedOne.hostBound = true ∧
    attachedOne.paneBound = true ∧
    attachedOne.isDisposed = false ∧
    (dispose (dispose attachedOne) = dispose attachedOne ∧
     apply true (dispose attachedOne) = .ok (dispose attachedOne) ∧
     (dispose attachedOne).paneStyles.top = "" ∧
     (dispose attachedOne).paneStyles.left = "" ∧
     (dispose attachedOne).paneStyles.bottom = "" ∧
     (dispose attachedOne).paneStyles.right = "" ∧
     (dispose attachedOne).paneStyles.position = "" ∧
     (dispose attachedOne).paneStyles.transform = "" ∧
     (dispose attachedOne).paneStyles.minHeight = "" ∧
     (dispose attachedOne).paneStyles.minWidth = "" ∧
     (dispose attachedOne).hostStyles.top = "" ∧
     (dispose attachedOne).hostStyles.left = "" ∧
     (dispose attachedOne).hostStyles.right = "" ∧
     (dispose attachedOne).hostStyles.bottom = "" ∧
     (dispose attachedOne).hostStyles.height = "" ∧
     (dispose attachedOne).hostStyles.width = "" ∧
     (dispose attachedOne).hostStyles.alignItems = "" ∧
     (dispose attachedOne).hostStyles.justifyContent = "" ∧
     (dispose attachedOne).hostStyles.margin = "" ∧
     (dispose attachedOne).hostClasses.contains BOUNDING_BOX_CLASS = false ∧
     (dispose attachedOne).documentStylesheets = attachedOne.documentStylesheets) :=
  ⟨rfl, rfl, rfl, c9_dispose_terminal_and_clean attachedOne true rfl rfl rfl⟩

/-- Claim C5: for an attached, non-disposed strategy in a browser, two
consecutive `apply()` calls with no intervening configuration or environment
change both succeed, write the byte-identical sequence of inline-style
declarations (`applyWriteList`), and the second call leaves the pane and
host declaration blocks exactly as the first left them. -/
theorem c5_apply_idempotent_writes (s : State) (ref : OverlayReference)
    (href : s.overlayReference = some ref) (hp : s.paneBound = true)
    (hh : s.hostBound = true) (hd : s.isDisposed = false) :
    apply true s = .ok (applyCore ref s) ∧
    apply true (applyCore ref s) = .ok (applyCore ref (applyCore ref s)) ∧
    (applyCore ref s).styleWriteLog.drop s.styleWriteLog.length =
      applyWriteList ref s ∧
    (applyCore ref (applyCore ref s)).styleWriteLog.drop
      (applyCore ref s).styleWriteLog.length = applyWriteList ref s ∧
    (applyCore ref (applyCore ref s)).paneStyles = (applyCore ref s).paneStyles ∧
    (applyCore ref (applyCore ref s)).hostStyles = (applyCore ref s).hostStyles := by
  obtain ⟨p1, p2, p3, p4, p5, p6, p7, p8, p9, p10, p11, p12, p13⟩ :=
    applyCore_preserves ref s hp hh
  refine ⟨?_, ?_, ?_, ?_, ?_, ?_⟩
  · simp [apply, hd, href, hp, hh]
  · rw [apply]
    rw [if_neg]
    · rw [p1, href]
      simp [p2, p3]
    · simp [p4, hd]
  · rw [applyCore_styleWriteLog ref s hp hh, List.drop_left]
  · rw [applyCore_styleWriteLog ref (applyCore ref s) p3 p2, List.drop_left]
    simp [applyWriteList, p7, p8]
  · exact applyCore_paneStyles_again ref s hp hh
  · exact applyCore_hostStyles_again ref s hp hh

/-- Witness for claim C5 at the concrete attached strategy. -/
theorem c5_apply_idempotent_writes_witness :
    attachedOne.overlayReference = some demoRef ∧
    attachedOne.paneBound = true ∧
    attachedOne.hostBound = true ∧
    attachedOne.isDisposed = false ∧
    (apply true attachedOne = .ok (applyCore demoRef attachedOne) ∧
     apply true (applyCore demoRef attachedOne) =
       .ok (applyCore demoRef (applyCore demoRef attachedOne)) ∧
     (applyCore demoRef attachedOne).styleWriteLog.drop
       attachedOne.styleWriteLog.length = applyWriteList demoRef attachedOne ∧
     (applyCore demoRef (applyCore demoRef attachedOne)).styleWriteLog.drop
       (applyCore demoRef attachedOne).styleWriteLog.length =
       applyWriteList demoRef attachedOne ∧
     (applyCore demoRef (applyCore demoRef attachedOne)).paneStyles =
       (applyCore demoRef attachedOne).paneStyles ∧
     (applyCore demoRef (applyCore demoRef attachedOne)).hostStyles =
       (applyCore demoRef attachedOne).hostStyles) :=
  ⟨rfl, rfl, rfl, rfl,
   c5_apply_idempotent_writes attachedOne demoRef rfl rfl rfl rfl⟩

/-- Claim C8, counterexample: the current strategy rejects a string logical
anchor name — both through the constructor and through `setOrigin` — with an
explicit error, instead of accepting it. -/
theorem c8_counterexample_string_anchor_rejected :
    construct (.name "anchor") =
      .error "AnchorPositioningStrategy only works with an Element or ElementRef" ∧
    setOrigin freshOne (.name "anchor") =
      .error "AnchorPositioningStrategy only works with an Element or ElementRef" :=
  ⟨rfl, rfl⟩

/-- Claim C8 as amended: in the current strategy the anchor must be a
concrete element — `setOrigin` accepts an `Element` or `ElementRef` and
fails on a string logical name with an explicit error — and `apply()` binds
the pane to the concrete anchor element through the pane's `anchorElement`
property (unwrapping an `ElementRef`); only the superseded draft variant
accepts a string anchor and binds it by logical name through the pane's
`anchor-default` declaration. -/
theorem c8_element_anchor_only (s : State) (ref : OverlayReference)
    (i j : Nat) (n : String)
    (href : s.overlayReference = some ref) (hp : s.paneBound = true)
    (hh : s.hostBound = true) (hd : s.isDisposed = false)
    (ho : s.origin = some (.elementRef i)) :
    setOrigin s (.element j) = .ok { s with origin := some (.element j) } ∧
    setOrigin s (.elementRef j) = .ok { s with origin := some (.elementRef j) } ∧
    setOrigin s (.name n) =
      .error "AnchorPositioningStrategy only works with an Element or ElementRef" ∧
    (apply true s).map State.paneAnchorElement = .ok (some (.element i)) ∧
    AnchorPositioningStrategyV0.apply true v0Demo =
      { v0Demo with
        panePosition := "fixed"
        paneAnchorDefault := "--anchor"
        panePositionFallback := "--default-position" } := by
  refine ⟨rfl, rfl, rfl, ?_, rfl⟩
  have happ : apply true s = .ok (applyCore ref s) := by
    simp [apply, hd, href, hp, hh]
  rw [happ]
  rw [Except.map]
  rw [applyCore_paneAnchorElement ref s hp hh, ho]
  rfl

/-- Witness for the amended claim C8 at the concrete attached strategy with
an `ElementRef` origin. -/
theorem c8_element_anchor_only_witness :
    attachedRefOrigin.overlayReference = some demoRef ∧
    attachedRefOrigin.paneBound = true ∧
    attachedRefOrigin.hostBound = true ∧
    attachedRefOrigin.isDisposed = false ∧
    attachedRefOrigin.origin = some (.elementRef 2) ∧
    (setOrigin attachedRefOrigin (.element 7) =
       .ok { attachedRefOrigin with origin := some (.element 7) } ∧
     setOrigin attachedRefOrigin (.elementRef 7) =
       .ok { attachedRefOrigin with origin := some (.elementRef 7) } ∧
     setOrigin attachedRefOrigin (.name "anchor") =
       .error "AnchorPositioningStrategy only works with an Element or ElementRef" ∧
     (apply true attachedRefOrigin).map State.paneAnchorElement =
       .ok (some (.element 2)) ∧
     AnchorPositioningStrategyV0.apply true v0Demo =
       { v0Demo with
         panePosition := "fixed"
         paneAnchorDefault := "--anchor"
         panePositionFallback := "--default-position" }) :=
  ⟨rfl, rfl, rfl, rfl, rfl,
   c8_element_anchor_only attachedRefOrigin demoRef 2 7 "anchor"
     rfl rfl rfl rfl rfl⟩
